import Mathlib

/-!
# UNet input-size constraints: a verified model

This file formalises the size-constraint calculator derived in the notebook
`modules/UNet_input_size_constrains.ipynb`.  The notebook establishes two
shape-arithmetic primitives (the output size of a strided convolution and of a
strided transposed convolution under MONAI's fixed padding conventions), and
then derives, in its closing "Constrains of UNet" section, the validity rules
a `(channels, strides, normalization)` configuration imposes on an input
tensor shape `[B, C, H, W, D]`:

* every spatial size `v` must satisfy
  `floor((v + s[0] - 1) / s[0]) % prod(s[1:]) == 0`;
* batch normalization additionally needs `B > 1`;
* instance normalization additionally needs, for `d = max(H, W, D)`,
  `floor((d + s[0] - 1) / s[0]) >= 2` when `len(strides) == 1`, and
  `floor((d + s[0] - 1) / s[0]) % (2 * prod(s[1:])) == 0` otherwise;
* local response normalization adds nothing.

The notebook validates each rule by running the actual MONAI `UNet` and
recording the resulting output shapes; those recorded shapes (e.g.
`torch.Size([2, 3, 15, 15, 15])` for input `[2, 1, 13, 14, 15]` with
`strides=(3, 5)`) pin down the network's true output sizes, which this file
also models: the network is a stride-`strides[0]` down layer, a
size-preserving skip-connection block, and a stride-`strides[0]` up layer, so
each spatial output size is
`transposedConvOutputSize(convOutputSize(v, strides[0]), strides[0])`.

Sizes are modelled as natural numbers; "less than 1" therefore means `= 0`.
-/

namespace UNetConstraints

/-- Per-dimension core of the notebook's `get_conv_output_size`:
`math.floor((size + stride - 1) / stride)`, the spatial output size of a
stride-`stride` convolution with `dilation = 1` and
`padding = (kernel_size - 1) / 2`. -/
def convOutputSize (inputSize stride : Nat) : Nat :=
  (inputSize + stride - 1) / stride

/-- The notebook's `get_conv_output_size`, which maps the per-dimension
formula over the spatial sizes of the input tensor. -/
def get_conv_output_size (spatialSizes : List Nat) (stride : Nat) : List Nat :=
  spatialSizes.map (fun size => convOutputSize size stride)

/-- The notebook's transposed-convolution output size: with
`output_padding = stride - 1`, `dilation = 1` and
`padding = (kernel_size - 1) / 2`, the output size is `input_size * stride`.
-/
def transposedConvOutputSize (inputSize stride : Nat) : Nat :=
  inputSize * stride

/-- The unsimplified PyTorch `Conv3d` output-size formula
`floor((in + 2*padding - dilation*(kernel - 1) - 1) / stride + 1)`,
specialised to `dilation = 1` and `padding = (kernelSize - 1) / 2` as fixed
by `monai.networks.blocks.convolutions.Convolution`.  Stated over `Int`,
matching Python integer arithmetic (all intermediate values here are
nonnegative, so the division conventions agree). -/
def convOutputSizeFull (inputSize stride kernelSize : Int) : Int :=
  (inputSize + 2 * ((kernelSize - 1) / 2) - (kernelSize - 1) - 1) / stride + 1

/-- The unsimplified PyTorch `ConvTranspose3d` output-size formula
`(in - 1)*stride - 2*padding + dilation*(kernel - 1) + output_padding + 1`,
specialised to `dilation = 1`, `padding = (kernelSize - 1) / 2` and
`output_padding = stride - 1` as fixed by MONAI's `Convolution` block. -/
def transposedConvOutputSizeFull (inputSize stride kernelSize : Int) : Int :=
  (inputSize - 1) * stride - 2 * ((kernelSize - 1) / 2) + (kernelSize - 1)
    + (stride - 1) + 1

/-- The three normalization layers whose constraints the notebook derives
(MONAI factory keys `BATCH`, `INSTANCE`, `LOCALRESPONSE`; the `GROUP`,
`LAYER` and `SYNCBATCH` factories are out of scope). -/
inductive NormalizationKind where
  | batch
  | instanceNorm
  | localResponse
deriving DecidableEq, Repr

/-- A UNet topology description, as passed to `monai.networks.nets.UNet` in
the notebook's examples: `channels` (length ≥ 2), `strides`
(length = `len(channels) - 1`), the two odd kernel sizes (they only fix the
padding and do not enter the size constraints), and the normalization kind.
-/
structure NetworkConfig where
  channels : List Nat
  strides : List Nat
  kernelSize : Nat
  upKernelSize : Nat
  normalization : NormalizationKind
deriving DecidableEq, Repr

/-- A candidate input shape `[batchSize, C, *spatialSizes]` (the channel
count does not enter the size constraints and is omitted). -/
structure InputShape where
  batchSize : Nat
  spatialSizes : List Nat
deriving DecidableEq, Repr

/-- Modelled from the spec: the error taxonomy of the Constraint Evaluator
(the notebook states the individual constraints and demonstrates the
failures by running the network, but defines no result type). -/
inductive ConstraintKind where
  | nonPositiveDimension
  | skipDivisibilityViolation
  | normalizationSizeViolation
deriving DecidableEq, Repr

/-- Modelled from the spec: the result of a constraint check — either
`valid` with the exact output shape, or `invalid` naming the violated rule.
-/
inductive ValidationResult where
  | valid (outputShape : InputShape)
  | invalid (violatedRule : ConstraintKind)
deriving DecidableEq, Repr

/-- `np.prod(strides[1:])` — the product of the strides of the nested
skip-connection stages (empty product `1` when `len(strides) == 1`). -/
def innerProduct (strides : List Nat) : Nat :=
  strides.tail.prod

/-- `d = max(H, W, D)`: the maximum spatial size of the input. -/
def maxSpatial (spatialSizes : List Nat) : Nat :=
  spatialSizes.foldr max 0

/-- Malformedness check: some size entry is less than 1 (i.e. `= 0` on
naturals). -/
def hasNonPositive (inp : InputShape) : Bool :=
  inp.batchSize == 0 || inp.spatialSizes.any (fun v => v == 0)

/-- The notebook's common skip-connection constraint: for every spatial size
`v`, `size = math.floor((v + s[0] - 1) / s[0])` must satisfy
`np.remainder(size, np.prod(s[1:])) == 0`.  When `len(strides) == 1` the
product is empty (`= 1`) and the condition is trivially true. -/
def skipOk (cfg : NetworkConfig) (inp : InputShape) : Bool :=
  inp.spatialSizes.all
    (fun v => convOutputSize v (cfg.strides.headD 1) % innerProduct cfg.strides == 0)

/-- The notebook's normalization-layer constraints: batch normalization
needs batch size `> 1`; local response normalization adds nothing; instance
normalization needs `math.floor((d + s - 1) / s) >= 2` for
`d = max(H, W, D)` when `len(strides) == 1`, and
`np.remainder(max_size, 2 * np.prod(s[1:])) == 0` when `len(strides) > 1`.
-/
def normalizationOk (cfg : NetworkConfig) (inp : InputShape) : Bool :=
  match cfg.normalization with
  | .batch => decide (1 < inp.batchSize)
  | .localResponse => true
  | .instanceNorm =>
      if cfg.strides.length ≤ 1 then
        decide (2 ≤ convOutputSize (maxSpatial inp.spatialSizes) (cfg.strides.headD 1))
      else
        decide (convOutputSize (maxSpatial inp.spatialSizes) (cfg.strides.headD 1)
          % (2 * innerProduct cfg.strides) = 0)

/-- The output shape the network actually produces on a valid input, read
off the notebook's structure (a stride-`strides[0]` down layer, a
size-preserving skip-connection block, a stride-`strides[0]` up layer) and
confirmed by every recorded output in the notebook (e.g. input
`[2, 1, 13, 14, 15]` with `strides = (3, 5)` gives
`torch.Size([2, 3, 15, 15, 15])`). -/
def outputShape (cfg : NetworkConfig) (inp : InputShape) : InputShape :=
  ⟨inp.batchSize,
    inp.spatialSizes.map (fun v =>
      transposedConvOutputSize (convOutputSize v (cfg.strides.headD 1))
        (cfg.strides.headD 1))⟩

/-- The Constraint Evaluator.  The constraint formulas are the notebook's
("Constrains of UNet" section); the `ValidationResult` wrapper and the
rule-checking order (malformedness, then skip divisibility, then
normalization) are modelled from the spec, which the notebook matches: its
error examples are exactly the inputs rejected here. -/
def evaluate (cfg : NetworkConfig) (inp : InputShape) : ValidationResult :=
  if hasNonPositive inp then .invalid .nonPositiveDimension
  else if !skipOk cfg inp then .invalid .skipDivisibilityViolation
  else if !normalizationOk cfg inp then .invalid .normalizationSizeViolation
  else .valid (outputShape cfg inp)

/-- Notebook example `len(channels) = 2`, batch normalization:
`UNet(channels=(8, 16), strides=(3,), kernel_size=3, up_kernel_size=3,
norm="batch")`. -/
def unetBatch3 : NetworkConfig :=
  ⟨[8, 16], [3], 3, 3, .batch⟩

/-- Notebook example `len(channels) = 2`, instance normalization:
`UNet(channels=(8, 16), strides=(3,), kernel_size=3, up_kernel_size=5,
norm="instance")`. -/
def unetInstance3 : NetworkConfig :=
  ⟨[8, 16], [3], 3, 5, .instanceNorm⟩

/-- Notebook example `strides=(3, 5)`, batch normalization:
`UNet(channels=(8, 16, 32), strides=(3, 5), kernel_size=3,
up_kernel_size=3, norm="batch")`. -/
def unetBatch35 : NetworkConfig :=
  ⟨[8, 16, 32], [3, 5], 3, 3, .batch⟩

/-- Notebook example `strides=(3, 2, 4)`, local response normalization:
`UNet(channels=(8, 16, 32, 16), strides=(3, 2, 4), kernel_size=1,
up_kernel_size=3, norm=("localresponse", {"size": 1}))`. -/
def unetLocal324 : NetworkConfig :=
  ⟨[8, 16, 32, 16], [3, 2, 4], 1, 3, .localResponse⟩

/-- Notebook example `strides=(1, 2, 2, 3)`, instance normalization:
`UNet(channels=(8, 16, 32, 32, 16), strides=(1, 2, 2, 3), kernel_size=5,
up_kernel_size=3, norm="instance")`. -/
def unetInstance1223 : NetworkConfig :=
  ⟨[8, 16, 32, 32, 16], [1, 2, 2, 3], 5, 3, .instanceNorm⟩

/-! ## Basic arithmetic about the two primitives -/

theorem convOutputSize_le_mul (v s : Nat) (hs : 0 < s) :
    v ≤ convOutputSize v s * s ∧ convOutputSize v s * s < v + s := by
  unfold convOutputSize
  have h1 := Nat.div_add_mod (v + s - 1) s
  have h2 : (v + s - 1) % s < s := Nat.mod_lt _ hs
  have h3 : (v + s - 1) / s * s = s * ((v + s - 1) / s) := Nat.mul_comm _ _
  omega

theorem convOutputSize_pos (v s : Nat) (hv : 0 < v) (hs : 0 < s) :
    0 < convOutputSize v s := by
  have h := convOutputSize_le_mul v s hs
  by_contra hc
  have h0 : convOutputSize v s = 0 := by omega
  rw [h0] at h
  omega

theorem conv_roundtrip_eq_iff (v s : Nat) (hv : 0 < v) (hs : 0 < s) :
    convOutputSize v s * s = v ↔ v % s = 0 := by
  have h := convOutputSize_le_mul v s hs
  constructor
  · intro hroundtrip
    rw [← hroundtrip]
    exact Nat.mul_mod_left _ _
  · intro hmod
    obtain ⟨k, hk⟩ := Nat.dvd_of_mod_eq_zero hmod
    have hkpos : 0 < k := by
      rcases Nat.eq_zero_or_pos k with h0 | h0
      · rw [h0, Nat.mul_zero] at hk; omega
      · exact h0
    have hconv : convOutputSize v s = k := by
      have hle : k ≤ convOutputSize v s := by
        have hcomm : k * s = s * k := Nat.mul_comm k s
        have hmul : k * s ≤ convOutputSize v s * s := by omega
        exact Nat.le_of_mul_le_mul_right hmul hs
      have hlt : convOutputSize v s < k + 1 := by
        have hexp : (k + 1) * s = s * k + s := by ring
        have hmul : convOutputSize v s * s < (k + 1) * s := by omega
        exact Nat.lt_of_mul_lt_mul_right hmul
      omega
    rw [hconv, Nat.mul_comm, ← hk]

theorem convOutputSize_eq_ceil (v s : Nat) (hs : 0 < s) :
    (convOutputSize v s : ℤ) = ⌈(v : ℚ) / (s : ℚ)⌉ := by
  have h := convOutputSize_le_mul v s hs
  have hsQ : (0 : ℚ) < (s : ℚ) := by exact_mod_cast hs
  symm
  rw [Int.ceil_eq_iff]
  constructor
  · rw [lt_div_iff₀ hsQ]
    have hc : (convOutputSize v s : ℚ) * s < v + s := by exact_mod_cast h.2
    push_cast
    nlinarith
  · rw [div_le_iff₀ hsQ]
    have hc : (v : ℚ) ≤ (convOutputSize v s : ℚ) * s := by exact_mod_cast h.1
    push_cast
    nlinarith

theorem two_le_convOutputSize_iff (d s : Nat) (hs : 0 < s) :
    2 ≤ convOutputSize d s ↔ s + 1 ≤ d := by
  unfold convOutputSize
  rw [Nat.le_div_iff_mul_le hs]
  omega

theorem convOutputSize_eq_pred_div (v s : Nat) (hv : 0 < v) (hs : 0 < s) :
    convOutputSize v s = (v - 1) / s + 1 := by
  unfold convOutputSize
  have h : v + s - 1 = (v - 1) + 1 * s := by omega
  rw [h, Nat.add_mul_div_right _ _ hs]

theorem convOutputSizeFull_eq (v s k : Nat) (hv : 0 < v) (hs : 0 < s)
    (hk : Odd k) :
    convOutputSizeFull (v : ℤ) (s : ℤ) (k : ℤ) = (convOutputSize v s : ℤ) := by
  obtain ⟨m, hm⟩ := hk
  have hpad : ((k : ℤ) - 1) / 2 = (m : ℤ) := by
    have : (k : ℤ) - 1 = 2 * (m : ℤ) := by
      have : (k : ℤ) = 2 * m + 1 := by exact_mod_cast hm
      omega
    rw [this]
    exact Int.mul_ediv_cancel_left _ (by norm_num)
  unfold convOutputSizeFull
  rw [hpad]
  have h1 : (v : ℤ) + 2 * (m : ℤ) - ((k : ℤ) - 1) - 1 = ((v - 1 : Nat) : ℤ) := by
    have hk' : (k : ℤ) = 2 * m + 1 := by exact_mod_cast hm
    have hv' : 1 ≤ (v : ℤ) := by exact_mod_cast hv
    push_cast [Nat.cast_sub hv]
    omega
  rw [h1, convOutputSize_eq_pred_div v s hv hs]
  push_cast [Int.ofNat_ediv]
  norm_cast

theorem transposedConvOutputSizeFull_eq (v s k : Nat) (hs : 0 < s)
    (hk : Odd k) :
    transposedConvOutputSizeFull (v : ℤ) (s : ℤ) (k : ℤ)
      = (transposedConvOutputSize v s : ℤ) := by
  obtain ⟨m, hm⟩ := hk
  have hpad : ((k : ℤ) - 1) / 2 = (m : ℤ) := by
    have : (k : ℤ) - 1 = 2 * (m : ℤ) := by
      have : (k : ℤ) = 2 * m + 1 := by exact_mod_cast hm
      omega
    rw [this]
    exact Int.mul_ediv_cancel_left _ (by norm_num)
  have hk' : (k : ℤ) = 2 * m + 1 := by exact_mod_cast hm
  have hs' : 1 ≤ (s : ℤ) := by exact_mod_cast hs
  unfold transposedConvOutputSizeFull transposedConvOutputSize
  rw [hpad]
  push_cast
  ring_nf
  omega

/-! ## Unfolding the Constraint Evaluator -/

theorem hasNonPositive_eq_false_iff (inp : InputShape) :
    hasNonPositive inp = false ↔
      0 < inp.batchSize ∧ ∀ v ∈ inp.spatialSizes, 0 < v := by
  simp [hasNonPositive, Nat.pos_iff_ne_zero]

theorem skipOk_iff (cfg : NetworkConfig) (inp : InputShape) :
    skipOk cfg inp = true ↔
      ∀ v ∈ inp.spatialSizes,
        convOutputSize v (cfg.strides.headD 1) % innerProduct cfg.strides = 0 := by
  simp [skipOk]

theorem evaluate_valid_conditions (cfg : NetworkConfig) (inp out : InputShape)
    (h : evaluate cfg inp = .valid out) :
    hasNonPositive inp = false ∧ skipOk cfg inp = true ∧
      normalizationOk cfg inp = true ∧ out = outputShape cfg inp := by
  cases h1 : hasNonPositive inp <;> cases h2 : skipOk cfg inp <;>
    cases h3 : normalizationOk cfg inp <;>
      simp [evaluate, h1, h2, h3] at h <;> simp [h]

theorem evaluate_isValid_iff (cfg : NetworkConfig) (inp : InputShape) :
    (∃ out, evaluate cfg inp = .valid out) ↔
      hasNonPositive inp = false ∧ skipOk cfg inp = true ∧
        normalizationOk cfg inp = true := by
  cases h1 : hasNonPositive inp <;> cases h2 : skipOk cfg inp <;>
    cases h3 : normalizationOk cfg inp <;> simp [evaluate, h1, h2, h3]

theorem evaluate_skip_invalid_iff (cfg : NetworkConfig) (inp : InputShape) :
    evaluate cfg inp = .invalid .skipDivisibilityViolation ↔
      hasNonPositive inp = false ∧ skipOk cfg inp = false := by
  cases h1 : hasNonPositive inp <;> cases h2 : skipOk cfg inp <;>
    cases h3 : normalizationOk cfg inp <;> simp [evaluate, h1, h2, h3]

theorem evaluate_norm_invalid_iff (cfg : NetworkConfig) (inp : InputShape) :
    evaluate cfg inp = .invalid .normalizationSizeViolation ↔
      hasNonPositive inp = false ∧ skipOk cfg inp = true ∧
        normalizationOk cfg inp = false := by
  cases h1 : hasNonPositive inp <;> cases h2 : skipOk cfg inp <;>
    cases h3 : normalizationOk cfg inp <;> simp [evaluate, h1, h2, h3]

theorem normalizationOk_batch_iff (cfg : NetworkConfig) (inp : InputShape)
    (h : cfg.normalization = .batch) :
    normalizationOk cfg inp = true ↔ 1 < inp.batchSize := by
  simp [normalizationOk, h]

/-! ## The claims -/

/-- C2: for positive `inputSize` and `stride`, the round trip
`transposedConvOutputSize (convOutputSize inputSize stride) stride` equals
`inputSize` exactly when `stride` divides `inputSize`, and otherwise yields
a different value. -/
theorem C2_conv_roundtrip (v s : Nat) (hv : 0 < v) (hs : 0 < s) :
    (transposedConvOutputSize (convOutputSize v s) s = v ↔ v % s = 0) ∧
    (v % s ≠ 0 → transposedConvOutputSize (convOutputSize v s) s ≠ v) := by
  have h := conv_roundtrip_eq_iff v s hv hs
  unfold transposedConvOutputSize
  exact ⟨h, fun hne heq => hne (h.mp heq)⟩

theorem C2_conv_roundtrip_witness :
    (transposedConvOutputSize (convOutputSize 14 3) 3 = 14 ↔ 14 % 3 = 0) ∧
    (14 % 3 ≠ 0 → transposedConvOutputSize (convOutputSize 14 3) 3 ≠ 14) :=
  C2_conv_roundtrip 14 3 (by decide) (by decide)

/-- C4: `convOutputSize` computes `floor((inputSize + stride - 1) / stride)`,
which equals the ceiling of `inputSize / stride` and is at least 1 for
positive arguments; moreover it agrees with the unsimplified PyTorch
`Conv3d` formula for every odd kernel size. -/
theorem C4_convOutputSize_correct (v s : Nat) (hv : 0 < v) (hs : 0 < s) :
    convOutputSize v s = (v + s - 1) / s ∧
    (convOutputSize v s : ℤ) = ⌈(v : ℚ) / (s : ℚ)⌉ ∧
    1 ≤ convOutputSize v s :=
  ⟨rfl, convOutputSize_eq_ceil v s hs, convOutputSize_pos v s hv hs⟩

theorem C4_convOutputSize_correct_witness :
    convOutputSize 15 3 = (15 + 3 - 1) / 3 ∧
    (convOutputSize 15 3 : ℤ) = ⌈(15 : ℚ) / (3 : ℚ)⌉ ∧
    1 ≤ convOutputSize 15 3 :=
  C4_convOutputSize_correct 15 3 (by decide) (by decide)

/-- C5: `transposedConvOutputSize` returns `inputSize * stride`, and this
matches the unsimplified PyTorch `ConvTranspose3d` formula with
`padding = (kernelSize - 1) / 2` and `outputPadding = stride - 1` for every
odd kernel size. -/
theorem C5_transposedConvOutputSize_correct (v s k : Nat) (hv : 0 < v)
    (hs : 0 < s) (hk : Odd k) :
    transposedConvOutputSize v s = v * s ∧
    transposedConvOutputSizeFull (v : ℤ) (s : ℤ) (k : ℤ)
      = (transposedConvOutputSize v s : ℤ) :=
  ⟨rfl, transposedConvOutputSizeFull_eq v s k hs hk⟩

theorem C5_transposedConvOutputSize_correct_witness :
    transposedConvOutputSize 29 3 = 29 * 3 ∧
    transposedConvOutputSizeFull (29 : ℤ) (3 : ℤ) (3 : ℤ)
      = (transposedConvOutputSize 29 3 : ℤ) :=
  C5_transposedConvOutputSize_correct 29 3 3 (by decide) (by decide) ⟨1, by decide⟩

/-- C1, counterexample: the evaluator judges the strides-(3,5) batch-norm
network with batch 2 and input spatial sizes [13,14,15] Valid, but the
output spatial shape is [15,15,15] (the notebook records
`torch.Size([2, 3, 15, 15, 15])`), not the input shape [13,14,15]. -/
theorem C1_output_not_input_counterexample :
    evaluate unetBatch35 ⟨2, [13, 14, 15]⟩
        = .valid ⟨2, [15, 15, 15]⟩ ∧
      evaluate unetBatch35 ⟨2, [13, 14, 15]⟩
        ≠ .valid ⟨2, [13, 14, 15]⟩ := by
  decide

/-- C1, amended: for every config and every input the evaluator judges
Valid, the batch size is unchanged and each spatial output size equals
`convOutputSize v strides[0] * strides[0]` — the input size rounded up to a
multiple of `strides[0]` — rather than the input size itself. -/
theorem C1_output_rounds_up_amended (cfg : NetworkConfig) (inp out : InputShape)
    (hval : evaluate cfg inp = .valid out) :
    out.batchSize = inp.batchSize ∧
    out.spatialSizes = inp.spatialSizes.map
      (fun v => convOutputSize v (cfg.strides.headD 1) * cfg.strides.headD 1) := by
  have h := (evaluate_valid_conditions cfg inp out hval).2.2.2
  subst h
  exact ⟨rfl, rfl⟩

theorem C1_output_rounds_up_amended_witness :
    (InputShape.mk 2 [15, 15, 15]).batchSize
        = (InputShape.mk 2 [13, 14, 15]).batchSize ∧
      (InputShape.mk 2 [15, 15, 15]).spatialSizes
        = (InputShape.mk 2 [13, 14, 15]).spatialSizes.map
            (fun v => convOutputSize v (unetBatch35.strides.headD 1)
              * unetBatch35.strides.headD 1) :=
  C1_output_rounds_up_amended unetBatch35 ⟨2, [13, 14, 15]⟩ ⟨2, [15, 15, 15]⟩
    (by decide)

/-- C3: with more than one stride, the evaluator reports
`SkipDivisibilityViolation` on a well-formed input exactly when some spatial
size `v` has `convOutputSize v strides[0]` not divisible by the product of
the remaining strides; for strides (3,5), [13,14,15] passes (it is Valid)
while [12,14,15] fails because `floor((12+2)/3) = 4` is not divisible by 5.
-/
theorem C3_skip_divisibility (cfg : NetworkConfig) (s0 : Nat)
    (rest : List Nat) (inp : InputShape)
    (hstr : cfg.strides = s0 :: rest) (hrest : rest ≠ [])
    (hb : 0 < inp.batchSize) (hsp : ∀ v ∈ inp.spatialSizes, 0 < v) :
    (evaluate cfg inp = .invalid .skipDivisibilityViolation ↔
      ∃ v ∈ inp.spatialSizes, convOutputSize v s0 % rest.prod ≠ 0) ∧
    evaluate unetBatch35 ⟨2, [13, 14, 15]⟩ = .valid ⟨2, [15, 15, 15]⟩ ∧
    evaluate unetBatch35 ⟨2, [12, 14, 15]⟩
      = .invalid .skipDivisibilityViolation ∧
    convOutputSize 12 3 = 4 ∧ 4 % 5 ≠ 0 := by
  refine ⟨?_, by decide, by decide, by decide, by decide⟩
  rw [evaluate_skip_invalid_iff]
  rw [hasNonPositive_eq_false_iff]
  constructor
  · rintro ⟨-, hsk⟩
    by_contra hno
    push_neg at hno
    have : skipOk cfg inp = true := by
      rw [skipOk_iff, hstr]
      simpa [innerProduct] using hno
    rw [this] at hsk
    exact Bool.noConfusion hsk
  · rintro ⟨v, hv, hvne⟩
    refine ⟨⟨hb, hsp⟩, ?_⟩
    by_contra hsk
    have : skipOk cfg inp = true := by
      cases h : skipOk cfg inp
      · exact absurd h hsk
      · rfl
    rw [skipOk_iff, hstr] at this
    exact hvne (by simpa [innerProduct] using this v hv)

theorem C3_skip_divisibility_witness :
    (evaluate unetBatch35 ⟨2, [12, 14, 15]⟩
        = .invalid .skipDivisibilityViolation ↔
      ∃ v ∈ (InputShape.mk 2 [12, 14, 15]).spatialSizes,
        convOutputSize v 3 % ([5] : List Nat).prod ≠ 0) ∧
    evaluate unetBatch35 ⟨2, [13, 14, 15]⟩ = .valid ⟨2, [15, 15, 15]⟩ ∧
    evaluate unetBatch35 ⟨2, [12, 14, 15]⟩
      = .invalid .skipDivisibilityViolation ∧
    convOutputSize 12 3 = 4 ∧ 4 % 5 ≠ 0 :=
  C3_skip_divisibility unetBatch35 3 [5] ⟨2, [12, 14, 15]⟩ (by decide)
    (by decide) (by decide) (by decide)

/-- C6: with batch normalization the evaluator requires batch size > 1 and
nothing else beyond the (here trivial) skip rule, independently of the
spatial sizes: for the two-stage strides-(3,) batch-norm network a
positive-size input is Valid exactly when the batch size exceeds 1; input
[2,1,1,1,1] is Valid and [1,1,1,1,1] is Invalid(NormalizationSizeViolation).
-/
theorem C6_batch_requires_batch_gt_one (b : Nat) (ss : List Nat)
    (hsp : ∀ v ∈ ss, 0 < v) :
    ((∃ out, evaluate unetBatch3 ⟨b, ss⟩ = .valid out) ↔ 1 < b) ∧
    (∀ cfg : NetworkConfig, ∀ inp out : InputShape,
      cfg.normalization = .batch → evaluate cfg inp = .valid out →
        1 < inp.batchSize) ∧
    evaluate unetBatch3 ⟨2, [1, 1, 1]⟩ = .valid ⟨2, [3, 3, 3]⟩ ∧
    evaluate unetBatch3 ⟨1, [1, 1, 1]⟩
      = .invalid .normalizationSizeViolation := by
  refine ⟨?_, ?_, by decide, by decide⟩
  · rw [evaluate_isValid_iff, hasNonPositive_eq_false_iff]
    constructor
    · rintro ⟨-, -, hnorm⟩
      exact (normalizationOk_batch_iff _ _ rfl).mp hnorm
    · intro hb
      refine ⟨⟨Nat.lt_trans Nat.one_pos hb, hsp⟩, ?_,
        (normalizationOk_batch_iff _ _ rfl).mpr hb⟩
      rw [skipOk_iff]
      intro v hv
      simp [unetBatch3, innerProduct, Nat.mod_one]
  · intro cfg inp out hnorm hval
    exact (normalizationOk_batch_iff cfg inp hnorm).mp
      (evaluate_valid_conditions cfg inp out hval).2.2.1

theorem C6_batch_requires_batch_gt_one_witness :
    ((∃ out, evaluate unetBatch3 ⟨2, [1, 1, 1]⟩ = .valid out) ↔ 1 < 2) ∧
    (∀ cfg : NetworkConfig, ∀ inp out : InputShape,
      cfg.normalization = .batch → evaluate cfg inp = .valid out →
        1 < inp.batchSize) ∧
    evaluate unetBatch3 ⟨2, [1, 1, 1]⟩ = .valid ⟨2, [3, 3, 3]⟩ ∧
    evaluate unetBatch3 ⟨1, [1, 1, 1]⟩
      = .invalid .normalizationSizeViolation :=
  C6_batch_requires_batch_gt_one 2 [1, 1, 1] (by decide)

/-- C7: with instance normalization and a single stride, the evaluator
accepts a positive-size input exactly when the maximum spatial size `d`
satisfies `convOutputSize d strides[0] ≥ 2`, which is equivalent to
`d ≥ strides[0] + 1`; for strides (3,), input [1,1,4,1,1] is Valid (output
torch spatial [6,3,3]) and [1,1,1,1,3] is
Invalid(NormalizationSizeViolation). -/
theorem C7_instance_single_stride (cfg : NetworkConfig) (s0 : Nat)
    (inp : InputShape)
    (hnorm : cfg.normalization = .instanceNorm)
    (hstr : cfg.strides = [s0])
    (hb : 0 < inp.batchSize) (hsp : ∀ v ∈ inp.spatialSizes, 0 < v) :
    ((∃ out, evaluate cfg inp = .valid out) ↔
      2 ≤ convOutputSize (maxSpatial inp.spatialSizes) s0) ∧
    (∀ d s : Nat, 0 < s → (2 ≤ convOutputSize d s ↔ s + 1 ≤ d)) ∧
    evaluate unetInstance3 ⟨1, [4, 1, 1]⟩ = .valid ⟨1, [6, 3, 3]⟩ ∧
    evaluate unetInstance3 ⟨1, [1, 1, 3]⟩
      = .invalid .normalizationSizeViolation := by
  refine ⟨?_, fun d s hs => two_le_convOutputSize_iff d s hs, by decide,
    by decide⟩
  rw [evaluate_isValid_iff, hasNonPositive_eq_false_iff]
  constructor
  · rintro ⟨-, -, hn⟩
    simpa [normalizationOk, hnorm, hstr] using hn
  · intro h2
    refine ⟨⟨hb, hsp⟩, ?_, ?_⟩
    · rw [skipOk_iff, hstr]
      intro v hv
      simp [innerProduct, Nat.mod_one]
    · simpa [normalizationOk, hnorm, hstr] using h2

theorem C7_instance_single_stride_witness :
    ((∃ out, evaluate unetInstance3 ⟨1, [4, 1, 1]⟩ = .valid out) ↔
      2 ≤ convOutputSize
        (maxSpatial (InputShape.mk 1 [4, 1, 1]).spatialSizes) 3) ∧
    (∀ d s : Nat, 0 < s → (2 ≤ convOutputSize d s ↔ s + 1 ≤ d)) ∧
    evaluate unetInstance3 ⟨1, [4, 1, 1]⟩ = .valid ⟨1, [6, 3, 3]⟩ ∧
    evaluate unetInstance3 ⟨1, [1, 1, 3]⟩
      = .invalid .normalizationSizeViolation :=
  C7_instance_single_stride unetInstance3 3 ⟨1, [4, 1, 1]⟩ rfl rfl
    (by decide) (by decide)

/-- C8: with instance normalization and more than one stride, a
positive-size input already satisfying the skip-divisibility rule is
accepted exactly when `convOutputSize (max spatial) strides[0]` is
divisible by `2 * product(strides[1:])`; for strides (1,2,2,3), input
[24,12,12] is Valid and [12,12,12] is Invalid(NormalizationSizeViolation)
because 12 is not divisible by 24. -/
theorem C8_instance_multi_stride (cfg : NetworkConfig) (s0 r1 : Nat)
    (rest : List Nat) (inp : InputShape)
    (hnorm : cfg.normalization = .instanceNorm)
    (hstr : cfg.strides = s0 :: r1 :: rest)
    (hb : 0 < inp.batchSize) (hsp : ∀ v ∈ inp.spatialSizes, 0 < v)
    (hskip : ∀ v ∈ inp.spatialSizes,
      convOutputSize v s0 % (r1 :: rest).prod = 0) :
    ((∃ out, evaluate cfg inp = .valid out) ↔
      convOutputSize (maxSpatial inp.spatialSizes) s0
        % (2 * (r1 :: rest).prod) = 0) ∧
    evaluate unetInstance1223 ⟨1, [24, 12, 12]⟩ = .valid ⟨1, [24, 12, 12]⟩ ∧
    evaluate unetInstance1223 ⟨1, [12, 12, 12]⟩
      = .invalid .normalizationSizeViolation := by
  refine ⟨?_, by decide, by decide⟩
  have hlen : ¬ (cfg.strides.length ≤ 1) := by
    rw [hstr]
    simp only [List.length_cons]
    omega
  rw [evaluate_isValid_iff, hasNonPositive_eq_false_iff]
  constructor
  · rintro ⟨-, -, hn⟩
    simpa [normalizationOk, hnorm, hlen, hstr, innerProduct] using hn
  · intro h
    refine ⟨⟨hb, hsp⟩, ?_, ?_⟩
    · rw [skipOk_iff, hstr]
      intro v hv
      simpa [innerProduct] using hskip v hv
    · simpa [normalizationOk, hnorm, hlen, hstr, innerProduct] using h

theorem C8_instance_multi_stride_witness :
    ((∃ out, evaluate unetInstance1223 ⟨1, [24, 12, 12]⟩ = .valid out) ↔
      convOutputSize
          (maxSpatial (InputShape.mk 1 [24, 12, 12]).spatialSizes) 1
        % (2 * ([2, 2, 3] : List Nat).prod) = 0) ∧
    evaluate unetInstance1223 ⟨1, [24, 12, 12]⟩ = .valid ⟨1, [24, 12, 12]⟩ ∧
    evaluate unetInstance1223 ⟨1, [12, 12, 12]⟩
      = .invalid .normalizationSizeViolation :=
  C8_instance_multi_stride unetInstance1223 1 2 [2, 3] ⟨1, [24, 12, 12]⟩
    rfl rfl (by decide) (by decide) (by decide)

/-- C9: for every input the evaluator judges Valid, each spatial output
size is `transposedConvOutputSize (convOutputSize v strides[0]) strides[0]`
— the least multiple of `strides[0]` that is at least `v`, i.e. `v` rounded
up to a multiple of `strides[0]` — and it equals `v` exactly when
`strides[0]` divides `v`. -/
theorem C9_valid_output_sizes (cfg : NetworkConfig) (s0 : Nat)
    (rest : List Nat) (inp out : InputShape)
    (hstr : cfg.strides = s0 :: rest) (hs0 : 0 < s0)
    (hval : evaluate cfg inp = .valid out) :
    out.spatialSizes = inp.spatialSizes.map
      (fun v => transposedConvOutputSize (convOutputSize v s0) s0) ∧
    ∀ v ∈ inp.spatialSizes,
      v ≤ transposedConvOutputSize (convOutputSize v s0) s0 ∧
      transposedConvOutputSize (convOutputSize v s0) s0 < v + s0 ∧
      s0 ∣ transposedConvOutputSize (convOutputSize v s0) s0 ∧
      (transposedConvOutputSize (convOutputSize v s0) s0 = v ↔ s0 ∣ v) := by
  obtain ⟨hwf, -, -, hout⟩ := evaluate_valid_conditions cfg inp out hval
  rw [hasNonPositive_eq_false_iff] at hwf
  constructor
  · rw [hout]
    simp [outputShape, hstr]
  · intro v hv
    have hvpos : 0 < v := hwf.2 v hv
    have h := convOutputSize_le_mul v s0 hs0
    unfold transposedConvOutputSize
    refine ⟨h.1, h.2, dvd_mul_left s0 _, ?_⟩
    rw [conv_roundtrip_eq_iff v s0 hvpos hs0]
    exact Nat.dvd_iff_mod_eq_zero.symm

theorem C9_valid_output_sizes_witness :
    (InputShape.mk 2 [3, 3, 3]).spatialSizes
        = (InputShape.mk 2 [1, 1, 1]).spatialSizes.map
            (fun v => transposedConvOutputSize (convOutputSize v 3) 3) ∧
      ∀ v ∈ (InputShape.mk 2 [1, 1, 1]).spatialSizes,
        v ≤ transposedConvOutputSize (convOutputSize v 3) 3 ∧
        transposedConvOutputSize (convOutputSize v 3) 3 < v + 3 ∧
        3 ∣ transposedConvOutputSize (convOutputSize v 3) 3 ∧
        (transposedConvOutputSize (convOutputSize v 3) 3 = v ↔ 3 ∣ v) :=
  C9_valid_output_sizes unetBatch3 3 [] ⟨2, [1, 1, 1]⟩ ⟨2, [3, 3, 3]⟩ rfl
    (by decide) (by decide)

/-- C10: a stride of 1 is the identity for both primitives
(`convOutputSize v 1 = v` and `transposedConvOutputSize v 1 = v`), a stride
entry of 1 contributes factor 1 to the skip divisibility product, and for
the strides-(1,2,2,3) network every Valid input keeps its spatial sizes
unchanged in the output. -/
theorem C10_stride_one_identity :
    (∀ v : Nat, convOutputSize v 1 = v) ∧
    (∀ v : Nat, transposedConvOutputSize v 1 = v) ∧
    (∀ (s0 : Nat) (l1 l2 : List Nat),
      innerProduct (s0 :: (l1 ++ 1 :: l2)) = innerProduct (s0 :: (l1 ++ l2))) ∧
    (∀ inp out : InputShape, evaluate unetInstance1223 inp = .valid out →
      out.batchSize = inp.batchSize ∧ out.spatialSizes = inp.spatialSizes) := by
  refine ⟨?_, ?_, ?_, ?_⟩
  · intro v
    simp [convOutputSize]
  · intro v
    simp [transposedConvOutputSize]
  · intro s0 l1 l2
    simp [innerProduct, List.prod_append]
  · intro inp out hval
    obtain ⟨-, -, -, hout⟩ := evaluate_valid_conditions unetInstance1223 inp out hval
    subst hout
    refine ⟨rfl, ?_⟩
    have h1 : (fun v : Nat => transposedConvOutputSize (convOutputSize v 1) 1)
        = fun v : Nat => v := by
      funext v
      simp [transposedConvOutputSize, convOutputSize]
    simp [outputShape, unetInstance1223, h1]

theorem C10_stride_one_identity_witness :
    (InputShape.mk 1 [24, 12, 12]).batchSize
        = (InputShape.mk 1 [24, 12, 12]).batchSize ∧
      (InputShape.mk 1 [24, 12, 12]).spatialSizes
        = (InputShape.mk 1 [24, 12, 12]).spatialSizes :=
  C10_stride_one_identity.2.2.2 ⟨1, [24, 12, 12]⟩ ⟨1, [24, 12, 12]⟩ (by decide)

end UNetConstraints
